import Mathlib

/-!
A shallow embedding of the client-side session/profile synchronization
logic of `src/contexts/AuthContext.tsx` (the `AuthProvider` component and
its `useAuth` hook), together with the consumer guard of
`src/pages/Dashboard.tsx`.

The provider owns the React state `(user, profile, session, loading)`,
the mutable ref `fetchingProfile`, and the effect-local flag
`initialLoadComplete`.  Its asynchronous control flow is embedded as a
small-step machine: every `await` in the source is a suspension point,
and the environment (identity backend, profile store, the 10-second
timer and the event-loop scheduler) chooses which pending step settles
next via an explicit `Act`.  The machine models the mounted lifetime of
the provider (the `mounted` guard is true throughout).
-/

namespace LectureReminder

/-- Role column of the `profiles` table: `'admin' | 'lecturer' | 'student'`. -/
inductive Role
  | admin
  | lecturer
  | student
  deriving DecidableEq

/-- The `Profile` row shape declared in `AuthContext.tsx` (lines 6-17). -/
structure Profile where
  id : String
  email : String
  full_name : String
  role : Role
  avatar_url : Option String := none
  department : Option String := none
  level : Option String := none
  notification_email : Option String := none
  created_at : String := ""
  updated_at : String := ""
  deriving DecidableEq

/-- The supabase `Session`: we keep the owning user's id (`session.user.id`)
and the token material; the session is always replaced wholesale. -/
structure Session where
  userId : String
  accessToken : String := ""
  deriving DecidableEq

/-- Auth lifecycle events delivered by `supabase.auth.onAuthStateChange`. -/
inductive AuthEvent
  | SIGNED_IN
  | SIGNED_OUT
  | TOKEN_REFRESHED
  | USER_UPDATED
  | PASSWORD_RECOVERY
  | INITIAL_SESSION
  deriving DecidableEq

/-- A continuation suspended on the in-flight profile-fetch promise:
either the tail of an `onAuthStateChange` handler invocation (the code
after its `await fetchProfile(...)`, lines 147-160), or the tail of
`initializeAuth` (the code after its `await fetchProfile(...)`,
lines 200-205). -/
inductive FetchCont
  | handlerAfterFetch (event : AuthEvent)
  | initAfterFetch
  deriving DecidableEq

/-- Progress of `initializeAuth`: suspended at
`await supabase.auth.getSession()`, suspended at its
`await fetchProfile(...)`, or returned. -/
inductive InitPhase
  | pendingSession
  | awaitingProfile
  | done
  deriving DecidableEq

/-- How the raced profile query settles (`Promise.race` of the supabase
query against the 10-second timer, lines 64-106): the query resolves with
a row; resolves with error code `PGRST116` (row not found); resolves with
some other error object; the race rejects with the timeout `Error` (whose
message contains `timeout`); or it rejects with a non-timeout exception. -/
inductive QueryOutcome
  | ok (row : Profile)
  | notFound
  | errOther
  | timeout
  | exnOther
  deriving DecidableEq

/-- How `await supabase.auth.getSession()` inside `initializeAuth`
settles: resolves with `{ data: { session }, error: null }`, resolves
with an error object (line 172), or throws (line 207). -/
inductive GetSessionResult
  | ok (sess : Option Session)
  | err
  | exn
  deriving DecidableEq

/-- The synchronizer state at an observable point (a point where control
is back at the event loop).  `user`, `profile`, `session`, `loading` are
the React state hooks; `initialLoadComplete` is the effect-local flag;
`slot` is `fetchingProfile.current` (we record the user id the in-flight
IIFE captured); `waiters` are continuations awaiting the in-flight fetch
promise; `ready` are continuations whose awaited promise has settled but
which have not yet been resumed by the scheduler; `initPhase` tracks
`initializeAuth`; `queriesIssued` counts backend profile queries actually
started (an observable of the profile store, for deduplication claims). -/
structure Machine where
  user : Option String
  profile : Option Profile
  session : Option Session
  loading : Bool
  initialLoadComplete : Bool
  slot : Option String
  waiters : List FetchCont
  ready : List FetchCont
  initPhase : InitPhase
  queriesIssued : Nat
  deriving DecidableEq

/-- State right after the effect body ran synchronously at mount: the
`onAuthStateChange` subscription is attached (line 124) and
`initializeAuth()` has been called (line 219) and is suspended at its
`await supabase.auth.getSession()`.  `loading` starts `true` (line 46),
everything else is empty. -/
def init0 : Machine :=
  { user := none
    profile := none
    session := none
    loading := true
    initialLoadComplete := false
    slot := none
    waiters := []
    ready := []
    initPhase := .pendingSession
    queriesIssued := 0 }

/-- One call of `fetchProfile` up to its suspension (lines 52-117).  If
`fetchingProfile.current` is non-null the caller awaits the existing
promise — note the source compares only the ref against null, never the
captured user id.  Otherwise the IIFE starts (issuing one backend query)
and the slot is filled; either way the caller is enqueued as a waiter on
the single in-flight promise.  The check, the IIFE prefix and the slot
assignment all run in one synchronous stretch of the source, hence one
atomic step here. -/
def fetchProfileCall (uid : String) (k : FetchCont) (m : Machine) : Machine :=
  match m.slot with
  | some _ => { m with waiters := m.waiters ++ [k] }
  | none =>
      { m with slot := some uid
               waiters := m.waiters ++ [k]
               queriesIssued := m.queriesIssued + 1 }

/-- The tail of the `onAuthStateChange` handler (lines 152-160), run after
the branch-specific work: on `INITIAL_SESSION` set `initialLoadComplete`
and clear `loading`; on `SIGNED_IN` clear `loading` only when
`initialLoadComplete` already holds; otherwise nothing. -/
def handlerTail (e : AuthEvent) (m : Machine) : Machine :=
  if e = .INITIAL_SESSION then
    { m with initialLoadComplete := true, loading := false }
  else if e = .SIGNED_IN then
    if m.initialLoadComplete then { m with loading := false } else m
  else m

/-- The synchronous part of one `onAuthStateChange` handler invocation
(lines 125-161): `TOKEN_REFRESHED` updates the session only and returns;
`INITIAL_SESSION` after the initial load is skipped entirely; otherwise
the session and user are adopted, then `SIGNED_IN`/`INITIAL_SESSION`
with a user suspends at `await fetchProfile(session.user.id)` (the tail
becomes a waiter), `SIGNED_OUT` or a null session clears the profile and
runs the tail, and any other event runs the tail with the profile
untouched. -/
def handleEvent (e : AuthEvent) (sess : Option Session) (m : Machine) : Machine :=
  if e = .TOKEN_REFRESHED then
    { m with session := sess }
  else if e = .INITIAL_SESSION ∧ m.initialLoadComplete = true then
    m
  else
    match sess with
    | some s =>
        if e = .SIGNED_IN ∨ e = .INITIAL_SESSION then
          fetchProfileCall s.userId (FetchCont.handlerAfterFetch e)
            { m with session := some s, user := some s.userId }
        else if e = .SIGNED_OUT then
          handlerTail e { m with session := some s, user := some s.userId, profile := none }
        else
          handlerTail e { m with session := some s, user := some s.userId }
    | none =>
        handlerTail e { m with session := none, user := none, profile := none }

/-- `initializeAuth` resuming when `getSession` settles (lines 165-216).
On an error result: clear everything, `loading := false` — note the source
does NOT set `initialLoadComplete` on this branch (lines 172-179).  On a
thrown exception: clear everything, `loading := false`,
`initialLoadComplete := true` (lines 207-215).  With no session: clear
everything, `loading := false`, `initialLoadComplete := true`
(lines 184-191).  With a session: adopt session and user, then suspend at
`await fetchProfile(session.user.id)` (lines 194-199). -/
def initGetSession (r : GetSessionResult) (m : Machine) : Machine :=
  if m.initPhase = .pendingSession then
    match r with
    | .err =>
        { m with session := none, user := none, profile := none
                 loading := false, initPhase := .done }
    | .exn =>
        { m with session := none, user := none, profile := none
                 loading := false, initialLoadComplete := true, initPhase := .done }
    | .ok none =>
        { m with session := none, user := none, profile := none
                 loading := false, initialLoadComplete := true, initPhase := .done }
    | .ok (some s) =>
        fetchProfileCall s.userId FetchCont.initAfterFetch
          { m with session := some s, user := some s.userId, initPhase := .awaitingProfile }
  else m

/-- Effect of the fetch IIFE's settlement on the `profile` state
(lines 84-106): a row stores it; any settled error (`PGRST116` not-found
as well as other error objects) clears it; the timeout rejection is
caught and, its message containing `timeout`, clears it; a non-timeout
exception is caught but the profile is left untouched (the
`setProfile(null)` at line 103 is guarded by the timeout-message check). -/
def profileAfterOutcome (o : QueryOutcome) (prev : Option Profile) : Option Profile :=
  match o with
  | .ok row => some row
  | .notFound => none
  | .errOther => none
  | .timeout => none
  | .exnOther => prev

/-- The value the `fetchProfile` promise resolves with: the row on
success, `null` on every error, timeout or exception path (lines 91, 95,
106); the call never rejects. -/
def fetchResult (o : QueryOutcome) : Option Profile :=
  match o with
  | .ok row => some row
  | _ => none

/-- The in-flight fetch IIFE settles with outcome `o`: the profile state
is updated per `profileAfterOutcome`, the `finally` clears
`fetchingProfile.current` (line 109), and every waiter on the promise
becomes ready to resume. -/
def resolveFetch (o : QueryOutcome) (m : Machine) : Machine :=
  match m.slot with
  | none => m
  | some _ =>
      { m with profile := profileAfterOutcome o m.profile
               slot := none
               waiters := []
               ready := m.ready ++ m.waiters }

/-- The scheduler resumes one ready continuation: a handler tail runs
`handlerTail`; the `initializeAuth` tail sets `initialLoadComplete`,
clears `loading` and returns (lines 202-205). -/
def runReady (m : Machine) : Machine :=
  match m.ready with
  | [] => m
  | k :: rest =>
      match k with
      | .handlerAfterFetch e => handlerTail e { m with ready := rest }
      | .initAfterFetch =>
          { m with ready := rest, initialLoadComplete := true
                   loading := false, initPhase := .done }

/-- The synchronous prefix of the `signIn` action: `setLoading(true)`
(line 229) before awaiting `signInWithPassword`. -/
def signInSetsLoading (m : Machine) : Machine := { m with loading := true }

/-- One environment/scheduler choice: deliver an auth event to the
subscription handler, settle the pending `getSession`, settle the
in-flight profile query, resume one ready continuation, or start the
`signIn` action. -/
inductive Act
  | deliver (e : AuthEvent) (sess : Option Session)
  | getSessionSettles (r : GetSessionResult)
  | fetchSettles (o : QueryOutcome)
  | resume
  | signInStarts
  deriving DecidableEq

/-- One small step of the machine. -/
def step (a : Act) (m : Machine) : Machine :=
  match a with
  | .deliver e sess => handleEvent e sess m
  | .getSessionSettles r => initGetSession r m
  | .fetchSettles o => resolveFetch o m
  | .resume => runReady m
  | .signInStarts => signInSetsLoading m

/-- Run a finite schedule of steps. -/
def run : List Act → Machine → Machine
  | [], m => m
  | a :: rest, m => run rest (step a m)

/-- A session for principal `u1`. -/
def u1Session : Session := { userId := "u1", accessToken := "t1" }

/-- A session for principal `u2`. -/
def u2Session : Session := { userId := "u2", accessToken := "t2" }

/-- The profile row of principal `u1`. -/
def u1Profile : Profile :=
  { id := "u1", email := "u1@example.com", full_name := "User One", role := .lecturer }

/-- The profile row of principal `u2`. -/
def u2Profile : Profile :=
  { id := "u2", email := "u2@example.com", full_name := "User Two", role := .admin }

/-- A student profile row for principal `u1`. -/
def stuProfile : Profile :=
  { id := "u1", email := "u1@example.com", full_name := "User One", role := .student }

/-- Cross-user leakage schedule: `SIGNED_IN` for `u1` starts a profile
fetch; `SIGNED_OUT` then `SIGNED_IN` for `u2` arrive while that fetch is
still in flight, so the `u2` handler joins `u1`'s fetch (the dedup slot
holds no user id); the fetch then resolves with `u1`'s row and both
suspended handler tails resume. -/
def leakTrace : List Act :=
  [ .deliver .SIGNED_IN (some u1Session)
  , .deliver .SIGNED_OUT none
  , .deliver .SIGNED_IN (some u2Session)
  , .fetchSettles (.ok u1Profile)
  , .resume
  , .resume ]

/-- An event delivered and fully handled while `initializeAuth` is still
suspended at `getSession`. -/
def c3Trace : List Act := [ .deliver .TOKEN_REFRESHED (some u1Session) ]

/-- A `USER_UPDATED` event carrying a session, delivered at mount time. -/
def c4Trace : List Act := [ .deliver .USER_UPDATED (some u1Session) ]

/-- Schedule reaching a state with a student profile and `loading = true`
(sign-in just clicked), then a `SIGNED_OUT` event. -/
def c8Trace : List Act :=
  [ .getSessionSettles (.ok none)
  , .deliver .SIGNED_IN (some u1Session)
  , .fetchSettles (.ok stuProfile)
  , .resume
  , .signInStarts
  , .deliver .SIGNED_OUT none ]

/-- Schedule in which a completed fetch left a profile in place and a
second fetch for the same user then rejects with a non-timeout
exception. -/
def c9Trace : List Act :=
  [ .deliver .SIGNED_IN (some u1Session)
  , .fetchSettles (.ok stuProfile)
  , .resume
  , .deliver .SIGNED_IN (some u1Session)
  , .fetchSettles .exnOther ]

/-- Schedule for the initialization flow whose profile query times out. -/
def c9InitTimeoutTrace : List Act :=
  [ .getSessionSettles (.ok (some u1Session))
  , .fetchSettles .timeout
  , .resume ]

/-- State after `initializeAuth` completed with no stored session. -/
def mInitDone : Machine := run [ .getSessionSettles (.ok none) ] init0

/-- The value object provided through the context (the keys of `value`,
`AuthContext.tsx` lines 320-331, matching `AuthContextType`
lines 19-30). -/
def authContextValueFields : List String :=
  [ "user", "profile", "session", "loading", "signIn", "signUp", "signOut"
  , "isAdmin", "isLecturer", "isStudent" ]

/-- The names `Dashboard.tsx` destructures from `useAuth()` (line 8). -/
def dashboardAuthReads : List String :=
  [ "profile", "loading", "initialized", "isAdmin", "isLecturer", "isStudent" ]

/-- The `Dashboard` loading guard (`Dashboard.tsx` line 11):
`!initialized || loading || !profile`. -/
def dashboardShowsSpinner (initialized loading : Bool) (profile : Option Profile) : Bool :=
  !initialized || loading || profile.isNone

/-- The data part of the context value handed to consumers (shape used by
`useAuth`; the three action functions are elided as they carry no state). -/
structure AuthContextValue where
  user : Option String
  profile : Option Profile
  session : Option Session
  loading : Bool
  isAdmin : Bool
  isLecturer : Bool
  isStudent : Bool
  deriving DecidableEq

/-- The `useAuth` hook (lines 34-40): reading the context outside a
provider yields `undefined` and the hook throws; inside a provider it
returns the value. -/
def useAuth (ctx : Option AuthContextValue) : Except String AuthContextValue :=
  match ctx with
  | none => .error "useAuth must be used within an AuthProvider"
  | some v => .ok v

/-- `fetchProfileCall` never touches `initialLoadComplete`. -/
theorem fetchProfileCall_ilc (uid : String) (k : FetchCont) (m : Machine) :
    (fetchProfileCall uid k m).initialLoadComplete = m.initialLoadComplete := by
  unfold fetchProfileCall
  cases m.slot <;> rfl

/-- `fetchProfileCall` always enqueues the caller on the single in-flight
promise. -/
theorem fetchProfileCall_waiters (uid : String) (k : FetchCont) (m : Machine) :
    (fetchProfileCall uid k m).waiters = m.waiters ++ [k] := by
  unfold fetchProfileCall
  cases m.slot <;> rfl

/-- The handler tail preserves `initialLoadComplete` once it is set. -/
theorem handlerTail_ilc (e : AuthEvent) (m : Machine)
    (h : m.initialLoadComplete = true) :
    (handlerTail e m).initialLoadComplete = true := by
  unfold handlerTail
  split_ifs <;> first | rfl | exact h

/-- The event handler preserves `initialLoadComplete` once it is set. -/
theorem handleEvent_ilc (e : AuthEvent) (sess : Option Session) (m : Machine)
    (h : m.initialLoadComplete = true) :
    (handleEvent e sess m).initialLoadComplete = true := by
  cases sess with
  | none =>
      unfold handleEvent
      split_ifs <;> first | exact h | exact handlerTail_ilc _ _ h
  | some s =>
      unfold handleEvent
      split_ifs <;>
        first
        | exact h
        | exact (fetchProfileCall_ilc _ _ _).trans h
        | exact handlerTail_ilc _ _ h

/-- `initializeAuth` resumption preserves `initialLoadComplete` once set. -/
theorem initGetSession_ilc (r : GetSessionResult) (m : Machine)
    (h : m.initialLoadComplete = true) :
    (initGetSession r m).initialLoadComplete = true := by
  unfold initGetSession
  split_ifs with h1
  · cases r with
    | err => exact h
    | exn => rfl
    | ok sess =>
        cases sess with
        | none => rfl
        | some s => exact (fetchProfileCall_ilc _ _ _).trans h
  · exact h

/-- Fetch settlement preserves `initialLoadComplete` once set. -/
theorem resolveFetch_ilc (o : QueryOutcome) (m : Machine)
    (h : m.initialLoadComplete = true) :
    (resolveFetch o m).initialLoadComplete = true := by
  unfold resolveFetch
  cases m.slot <;> exact h

/-- Resuming a ready continuation preserves `initialLoadComplete` once set. -/
theorem runReady_ilc (m : Machine) (h : m.initialLoadComplete = true) :
    (runReady m).initialLoadComplete = true := by
  unfold runReady
  cases hr : m.ready with
  | nil => exact h
  | cons k rest =>
      cases k with
      | handlerAfterFetch e => exact handlerTail_ilc _ _ h
      | initAfterFetch => rfl

/-- Every single step preserves `initialLoadComplete` once it is set. -/
theorem step_ilc_mono (a : Act) (m : Machine) (h : m.initialLoadComplete = true) :
    (step a m).initialLoadComplete = true := by
  cases a with
  | deliver e sess => exact handleEvent_ilc e sess m h
  | getSessionSettles r => exact initGetSession_ilc r m h
  | fetchSettles o => exact resolveFetch_ilc o m h
  | resume => exact runReady_ilc m h
  | signInStarts => exact h

/-- Every schedule preserves `initialLoadComplete` once it is set. -/
theorem run_ilc_mono (acts : List Act) :
    ∀ m : Machine, m.initialLoadComplete = true →
      (run acts m).initialLoadComplete = true := by
  induction acts with
  | nil => exact fun m h => h
  | cons a rest ih => exact fun m h => ih (step a m) (step_ilc_mono a m h)

/-- C1: the claimed invariant "the exposed profile is either null or its
id equals the id of the currently exposed principal, and after a rapid
SIGNED_IN(u1), SIGNED_OUT, SIGNED_IN(u2) sequence the old principal's
profile is never visible together with the new principal beyond the next
reconciliation pass" fails on the code: because `fetchProfile`'s
deduplication slot is compared only against null and carries no user id,
the SIGNED_IN(u2) handler joins u1's still-in-flight fetch, and when that
fetch resolves it stores u1's profile.  The schedule `leakTrace` ends in
a quiescent state (no in-flight fetch, no pending continuation) exposing
`user = u2` together with `profile = u1Profile`, whose id is not u2. -/
theorem c1_cross_user_leak :
    (run leakTrace init0).user = some "u2" ∧
    (run leakTrace init0).profile = some u1Profile ∧
    u1Profile.id ≠ "u2" ∧
    (run leakTrace init0).slot = none ∧
    (run leakTrace init0).waiters = [] ∧
    (run leakTrace init0).ready = [] := by
  refine ⟨rfl, rfl, ?_, rfl, rfl, rfl⟩
  decide

/-- C2: the value exposed through the auth context (lines 320-331)
carries user, profile, session, loading, the three role booleans and the
three actions, but NO `initialized` field — yet `Dashboard.tsx` line 8
destructures `initialized` from `useAuth()`.  The destructured value is
therefore `undefined` (falsy), so the dashboard's guard
`!initialized || loading || !profile` is true in every state and the
dashboard renders the loading spinner unconditionally. -/
theorem c2_initialized_not_exposed :
    "initialized" ∈ dashboardAuthReads ∧
    "initialized" ∉ authContextValueFields ∧
    (∀ (loading : Bool) (profile : Option Profile),
      dashboardShowsSpinner false loading profile = true) := by
  refine ⟨by decide, by decide, fun loading profile => rfl⟩

/-- C3 counterexample: the claim "startup reconciliation completes
strictly before the subscription begins processing any delivered event"
is false.  The subscription is attached (line 124) before
`initializeAuth()` is even called (line 219), and nothing awaits
`initializeAuth` before the handler runs: in `c3Trace` a TOKEN_REFRESHED
event is fully processed (the session visibly updated) while
`initializeAuth` is still suspended at `getSession`. -/
theorem c3_event_before_init_counterexample :
    (run c3Trace init0).session = some u1Session ∧
    (run c3Trace init0).initPhase = InitPhase.pendingSession := by
  exact ⟨rfl, rfl⟩

/-- C3 (amended): the subscription is attached before the startup
reconciliation begins and may process events against not-yet-initialized
state; the only ordering protection in the code is the
`initialLoadComplete` flag, which makes any INITIAL_SESSION event
delivered after the initial load a complete no-op. -/
theorem c3_initial_session_skipped (sess : Option Session) (m : Machine)
    (h : m.initialLoadComplete = true) :
    handleEvent AuthEvent.INITIAL_SESSION sess m = m := by
  unfold handleEvent
  rw [if_neg (by simp), if_pos ⟨rfl, h⟩]

/-- C3 witness: after an initialization that found no stored session, an
INITIAL_SESSION event leaves the state unchanged. -/
theorem c3_initial_session_skipped_witness :
    handleEvent AuthEvent.INITIAL_SESSION (some u1Session) mInitDone = mInitDone :=
  c3_initial_session_skipped (some u1Session) mInitDone rfl

/-- C4 counterexample: the claim "for every SIGNED_IN, USER_UPDATED or
PASSWORD_RECOVERY event carrying a session the handler adopts session and
principal, then performs fetchProfile, then sets loading to false" is
false for USER_UPDATED: in `c4Trace` the handler adopts the session and
user but issues no profile query, leaves nothing in flight, and leaves
`loading` at `true`. -/
theorem c4_user_updated_counterexample :
    (run c4Trace init0).user = some "u1" ∧
    (run c4Trace init0).session = some u1Session ∧
    (run c4Trace init0).queriesIssued = 0 ∧
    (run c4Trace init0).slot = none ∧
    (run c4Trace init0).waiters = [] ∧
    (run c4Trace init0).loading = true :=
  ⟨rfl, rfl, rfl, rfl, rfl, rfl⟩

/-- C4 (amended): only SIGNED_IN and INITIAL_SESSION events with a
session trigger `fetchProfile`.  USER_UPDATED and PASSWORD_RECOVERY
adopt the new session and principal but leave profile, loading and the
fetch machinery untouched; SIGNED_IN suspends the handler on a profile
fetch for the new session's user, and its resumed tail sets loading to
false only when the initial load was already complete. -/
theorem c4_dispatch_amended (m : Machine) (s : Session) :
    handleEvent AuthEvent.USER_UPDATED (some s) m
      = { m with session := some s, user := some s.userId } ∧
    handleEvent AuthEvent.PASSWORD_RECOVERY (some s) m
      = { m with session := some s, user := some s.userId } ∧
    (handleEvent AuthEvent.SIGNED_IN (some s) m).waiters
      = m.waiters ++ [FetchCont.handlerAfterFetch AuthEvent.SIGNED_IN] ∧
    (handlerTail AuthEvent.SIGNED_IN m).loading
      = (if m.initialLoadComplete then false else m.loading) := by
  refine ⟨rfl, rfl, ?_, ?_⟩
  · exact fetchProfileCall_waiters s.userId _ _
  · unfold handlerTail
    cases h : m.initialLoadComplete <;> simp [h]

/-- C5: `initialLoadComplete` (the spec's `initialized` flag) starts
false and, once set by any step, is never unset by any later schedule of
events, settlements and resumptions, however many operations fail: it
transitions false to true at most once and never reverts. -/
theorem c5_initialized_monotone (m : Machine) (acts : List Act)
    (h : m.initialLoadComplete = true) :
    (run acts m).initialLoadComplete = true ∧
    init0.initialLoadComplete = false :=
  ⟨run_ilc_mono acts m h, rfl⟩

/-- C5 witness: after an initialization that found no stored session the
flag is true, and it survives a SIGNED_OUT event followed by a timed-out
fetch settlement. -/
theorem c5_initialized_monotone_witness :
    (run [ Act.deliver AuthEvent.SIGNED_OUT none
         , Act.fetchSettles QueryOutcome.timeout ] mInitDone).initialLoadComplete = true ∧
    init0.initialLoadComplete = false :=
  c5_initialized_monotone mInitDone
    [ Act.deliver AuthEvent.SIGNED_OUT none
    , Act.fetchSettles QueryOutcome.timeout ] rfl

/-- C6: two `fetchProfile` calls for the same user id issued while the
first is still in flight collapse into one backend query: the second
call finds `fetchingProfile.current` non-null and awaits the existing
promise, so exactly one query is issued, a single fetch (for that id) is
in flight, both callers wait on the same promise, and when it settles
with outcome `o` both are released together by the one settlement, whose
single result determines the one profile update — both callers resolve
to the same `fetchResult o`. -/
theorem c6_fetch_dedup (m : Machine) (u : String) (k1 k2 : FetchCont) (o : QueryOutcome)
    (h : m.slot = none) :
    (fetchProfileCall u k2 (fetchProfileCall u k1 m)).queriesIssued = m.queriesIssued + 1 ∧
    (fetchProfileCall u k2 (fetchProfileCall u k1 m)).slot = some u ∧
    (fetchProfileCall u k2 (fetchProfileCall u k1 m)).waiters = m.waiters ++ [k1, k2] ∧
    (resolveFetch o (fetchProfileCall u k2 (fetchProfileCall u k1 m))).slot = none ∧
    (resolveFetch o (fetchProfileCall u k2 (fetchProfileCall u k1 m))).ready
      = m.ready ++ m.waiters ++ [k1, k2] ∧
    (resolveFetch o (fetchProfileCall u k2 (fetchProfileCall u k1 m))).profile
      = profileAfterOutcome o m.profile := by
  simp [fetchProfileCall, resolveFetch, h]

/-- C6 witness: two same-tick `fetchProfile("u2")` calls from the mount
state issue exactly one query; settling it with u2's row clears the slot,
releases both callers together and stores the one fetched row. -/
theorem c6_fetch_dedup_witness :
    (fetchProfileCall "u2" FetchCont.initAfterFetch
      (fetchProfileCall "u2" (FetchCont.handlerAfterFetch AuthEvent.SIGNED_IN)
        init0)).queriesIssued = init0.queriesIssued + 1 ∧
    (fetchProfileCall "u2" FetchCont.initAfterFetch
      (fetchProfileCall "u2" (FetchCont.handlerAfterFetch AuthEvent.SIGNED_IN)
        init0)).slot = some "u2" ∧
    (fetchProfileCall "u2" FetchCont.initAfterFetch
      (fetchProfileCall "u2" (FetchCont.handlerAfterFetch AuthEvent.SIGNED_IN)
        init0)).waiters
      = init0.waiters ++ [FetchCont.handlerAfterFetch AuthEvent.SIGNED_IN
                         , FetchCont.initAfterFetch] ∧
    (resolveFetch (QueryOutcome.ok u2Profile)
      (fetchProfileCall "u2" FetchCont.initAfterFetch
        (fetchProfileCall "u2" (FetchCont.handlerAfterFetch AuthEvent.SIGNED_IN)
          init0))).slot = none ∧
    (resolveFetch (QueryOutcome.ok u2Profile)
      (fetchProfileCall "u2" FetchCont.initAfterFetch
        (fetchProfileCall "u2" (FetchCont.handlerAfterFetch AuthEvent.SIGNED_IN)
          init0))).ready
      = init0.ready ++ init0.waiters ++ [FetchCont.handlerAfterFetch AuthEvent.SIGNED_IN
                                        , FetchCont.initAfterFetch] ∧
    (resolveFetch (QueryOutcome.ok u2Profile)
      (fetchProfileCall "u2" FetchCont.initAfterFetch
        (fetchProfileCall "u2" (FetchCont.handlerAfterFetch AuthEvent.SIGNED_IN)
          init0))).profile
      = profileAfterOutcome (QueryOutcome.ok u2Profile) init0.profile :=
  c6_fetch_dedup init0 "u2" (FetchCont.handlerAfterFetch AuthEvent.SIGNED_IN)
    FetchCont.initAfterFetch (QueryOutcome.ok u2Profile) rfl

/-- C7: a TOKEN_REFRESHED event updates only the session: the handler
returns right after `setSession`, leaving the profile (the identical
value), the user, the loading flag, the initialization flag, the fetch
slot and waiters, and the backend query count all unchanged — no profile
fetch is triggered. -/
theorem c7_token_refreshed_frame (sess : Option Session) (m : Machine) :
    (handleEvent AuthEvent.TOKEN_REFRESHED sess m).session = sess ∧
    (handleEvent AuthEvent.TOKEN_REFRESHED sess m).profile = m.profile ∧
    (handleEvent AuthEvent.TOKEN_REFRESHED sess m).user = m.user ∧
    (handleEvent AuthEvent.TOKEN_REFRESHED sess m).loading = m.loading ∧
    (handleEvent AuthEvent.TOKEN_REFRESHED sess m).initialLoadComplete
      = m.initialLoadComplete ∧
    (handleEvent AuthEvent.TOKEN_REFRESHED sess m).slot = m.slot ∧
    (handleEvent AuthEvent.TOKEN_REFRESHED sess m).waiters = m.waiters ∧
    (handleEvent AuthEvent.TOKEN_REFRESHED sess m).queriesIssued = m.queriesIssued :=
  ⟨rfl, rfl, rfl, rfl, rfl, rfl, rfl, rfl⟩

/-- C8 counterexample: the claim "SIGNED_OUT clears principal, session
and profile and leaves loading equal to false for any prior state" is
false about loading: the SIGNED_OUT branch never touches `setLoading`.
In `c8Trace` the state before the event holds a student profile and
`loading = true` (sign-in just started); after SIGNED_OUT the three
entities are cleared but `loading` is still `true`, with nothing pending
to reset it. -/
theorem c8_signed_out_counterexample :
    (run (c8Trace.take 5) init0).profile = some stuProfile ∧
    stuProfile.role = Role.student ∧
    (run (c8Trace.take 5) init0).loading = true ∧
    (run c8Trace init0).user = none ∧
    (run c8Trace init0).session = none ∧
    (run c8Trace init0).profile = none ∧
    (run c8Trace init0).loading = true ∧
    (run c8Trace init0).ready = [] ∧
    (run c8Trace init0).slot = none :=
  ⟨rfl, rfl, rfl, rfl, rfl, rfl, rfl, rfl, rfl⟩

/-- C8 (amended): a SIGNED_OUT event clears the principal, session and
profile, and leaves `loading` unchanged — so loading is false afterwards
exactly when it already was false (as in the spec's Scenario C), but it
is not reset by the handler. -/
theorem c8_signed_out_clears (m : Machine) :
    handleEvent AuthEvent.SIGNED_OUT none m
      = { m with session := none, user := none, profile := none } := rfl

/-- C9 counterexample: the claim "any error is downgraded to clearing
the profile" fails for a non-timeout exception: the catch branch clears
the profile only when the error message contains `timeout`.  In
`c9Trace` a second fetch for u1 rejects with a non-timeout exception:
the call resolves to null without propagating, but the previously
fetched profile is left in place rather than cleared. -/
theorem c9_exception_counterexample :
    (run c9Trace init0).profile = some stuProfile ∧
    (run c9Trace init0).slot = none ∧
    fetchResult QueryOutcome.exnOther = none ∧
    profileAfterOutcome QueryOutcome.exnOther (some stuProfile) ≠ none :=
  ⟨rfl, rfl, rfl, by decide⟩

/-- C9 (amended): every `fetchProfile` call terminates with a defined
result — null on every non-success path, never a propagated error:
timeout, not-found (error `PGRST116`, distinguished from transport errors
only in logging) and any other settled error all resolve to null and
clear the profile; a non-timeout exception also resolves to null without
propagating but leaves the profile unchanged.  After an initialization
whose profile query times out, `loading` ends false (not stuck at
true). -/
theorem c9_fetch_error_handling (p : Option Profile) :
    profileAfterOutcome QueryOutcome.timeout p = none ∧
    profileAfterOutcome QueryOutcome.notFound p = none ∧
    profileAfterOutcome QueryOutcome.errOther p = none ∧
    profileAfterOutcome QueryOutcome.exnOther p = p ∧
    fetchResult QueryOutcome.timeout = none ∧
    fetchResult QueryOutcome.notFound = none ∧
    fetchResult QueryOutcome.errOther = none ∧
    fetchResult QueryOutcome.exnOther = none ∧
    (run c9InitTimeoutTrace init0).loading = false ∧
    (run c9InitTimeoutTrace init0).profile = none ∧
    (run c9InitTimeoutTrace init0).initialLoadComplete = true :=
  ⟨rfl, rfl, rfl, rfl, rfl, rfl, rfl, rfl, rfl, rfl, rfl⟩

/-- C10: calling `useAuth` with the context value absent (outside an
`AuthProvider`, where the context is `undefined`) yields exactly the
error `useAuth must be used within an AuthProvider`; with a provider
present it returns the provider's value and never throws. -/
theorem c10_useAuth_guard (v : AuthContextValue) :
    useAuth (some v) = Except.ok v ∧
    useAuth (none : Option AuthContextValue)
      = Except.error "useAuth must be used within an AuthProvider" :=
  ⟨rfl, rfl⟩

end LectureReminder
